import Mathlib

/-!
Verification of the iSCSI parameter-resolution core of danisla/longhorn-manager
(file `csi/iscsi.go`): endpoint parsing, CHAP secret extraction, portal
normalization, descriptor construction (`getISCSIInfo`) and connector assembly
(`buildISCSIConnector`).

Embedding conventions:
* Go strings are modelled as Lean `String`s and indexed/split at character
  granularity; every concrete input used below is ASCII, where byte and
  character operations coincide.
* The external JSON decoder (`encoding/json.Unmarshal` into
  `map[string]string`) is not part of this repository; functions that call it
  take the decoder as an explicit parameter `unmarshal : String → Option
  SecretMap` returning `none` exactly when Go's `Unmarshal` returns a non-nil
  error.  A Go `map[string]string` is modelled as an association list.
* Go's `error` results become `Except`; `fmt.Errorf` messages become
  constructors of `GoError` carrying the varying part of the message.
* `strconv.Atoi` is modelled by `goAtoi` (optional sign, decimal digits,
  64-bit signed range); the Go conversion `int32(l)` is modelled by `toInt32`.
* A Go string slice `s[0:8]` panics when the string is shorter than 8 bytes;
  `parseISCSIEndpoint` models this outcome as the explicit error value
  `EndpointError.panicSliceBounds`.
-/

namespace ISCSI

/-- Go `strings.Split(s, sep)` for a one-character separator, over char lists:
splitting never yields an empty list; the empty string splits to `[[]]`. -/
def goSplitAux (sep : Char) : List Char → List Char → List (List Char)
  | [], acc => [acc.reverse]
  | c :: cs, acc =>
      if c = sep then acc.reverse :: goSplitAux sep cs []
      else goSplitAux sep cs (c :: acc)

/-- Go `strings.Split(s, string(sep))`. -/
def goSplit (s : String) (sep : Char) : List String :=
  (goSplitAux sep s.data []).map String.mk

/-- Go `strings.Contains(s, string(c))` for a one-character needle. -/
def goContains (s : String) (c : Char) : Bool :=
  s.data.contains c

/-- The constant `defaultPort = "3260"` of `csi/iscsi.go`. -/
def defaultPort : String := "3260"

/-- `portalMounter` of `csi/iscsi.go`: append `":3260"` when the portal has no
`:`, otherwise return it unchanged. -/
def portalMounter (portal : String) : String :=
  if goContains portal ':' then portal else portal ++ ":3260"

/-- Decimal digit value of a character, `none` for a non-digit. -/
def digitVal (c : Char) : Option Nat :=
  if '0' ≤ c ∧ c ≤ '9' then some (c.toNat - '0'.toNat) else none

/-- Accumulate the decimal value of a digit run; `none` on any non-digit. -/
def parseDigitsAux : List Char → Nat → Option Nat
  | [], acc => some acc
  | c :: cs, acc =>
      match digitVal c with
      | none => none
      | some d => parseDigitsAux cs (acc * 10 + d)

/-- Go `strconv.Atoi` (= `ParseInt(s, 10, 64)` on a 64-bit platform):
optional `+`/`-` sign, then one or more decimal digits, value within the
signed 64-bit range; `none` models a non-nil error (syntax or range). -/
def goAtoi (s : String) : Option Int :=
  match s.data with
  | [] => none
  | c :: cs =>
      let signed : Bool × List Char :=
        if c = '+' then (false, cs)
        else if c = '-' then (true, cs)
        else (false, c :: cs)
      match signed.2 with
      | [] => none
      | ds =>
          match parseDigitsAux ds 0 with
          | none => none
          | some n =>
              if signed.1 then
                if n ≤ 2 ^ 63 then some (-(n : Int)) else none
              else
                if n ≤ 2 ^ 63 - 1 then some (n : Int) else none

/-- The Go conversion `int32(l)` applied to a platform `int`: reduce modulo
`2^32` and reinterpret as a signed 32-bit value. -/
def toInt32 (l : Int) : Int :=
  let r := l % 4294967296
  if r < 2147483648 then r else r - 4294967296

/-- A Go `map[string]string`, as an association list (`nil` map = `[]`). -/
abbrev SecretMap : Type := List (String × String)

/-- Go map indexing `m[k]` together with its `ok` flag: `some v` iff the key
is present. -/
def lookupKey (m : SecretMap) (k : String) : Option String :=
  List.lookup k m

/-- Number of entries of the map, Go `len(m)` (`len(nil) = 0`). -/
def mapLen (m : SecretMap) : Nat :=
  m.length

/-- `iscsiLib.Secrets`: the four CHAP credential fields plus the secrets
type; the Go zero value `Secrets{}` has every field `""`. -/
structure Secrets where
  UserName : String
  Password : String
  UserNameIn : String
  PasswordIn : String
  SecretsType : String
  deriving DecidableEq, Repr

/-- The Go zero value `iscsiLib.Secrets{}`, denoting an absent scope. -/
def emptySecrets : Secrets :=
  { UserName := "", Password := "", UserNameIn := "", PasswordIn := "", SecretsType := "" }

/-- The error values produced in `csi/iscsi.go` (each constructor stands for
one `fmt.Errorf`/`strconv` message). -/
inductive GoError where
  | missingTargetInfo
  | secretFieldNotFound (field : String)
  | noPortalsProvided
  | invalidLun (lun : String)
  deriving DecidableEq, Repr

/-- The `iscsiContext` struct of `csi/iscsi.go` (the RawContext of the spec). -/
structure iscsiContext where
  TargetPortal : String
  IQN : String
  Lun : String
  Portals : String
  Secret : String
  ISCSIInterface : String
  InitiatorName : String
  DiscoveryCHAPAuth : String
  SessionCHAPAuth : String
  deriving Repr

/-- The `iscsiDisk` struct of `csi/iscsi.go` (the ConnectionDescriptor of the
spec); `lun` holds the value of the Go `int32` field as an integer. -/
structure iscsiDisk where
  Portals : List String
  Iqn : String
  lun : Int
  Iface : String
  chapDiscovery : Bool
  chapSession : Bool
  secret : SecretMap
  sessionSecret : Secrets
  discoverySecret : Secrets
  InitiatorName : String
  VolName : String

/-- `parseSecret` of `csi/iscsi.go`: decode the blob; a decode error yields
the `nil` map. `unmarshal` is the external JSON decoder. -/
def parseSecret (unmarshal : String → Option SecretMap) (secretParams : String) : SecretMap :=
  match unmarshal secretParams with
  | none => ([] : List (String × String))
  | some m => m

/-- `parseSessionSecret` of `csi/iscsi.go`: empty map means no credentials;
otherwise all four `node.session.auth.*` fields are required, checked in
source order, and the populated scope gets `SecretsType = "chap"`. -/
def parseSessionSecret (secretParams : SecretMap) : Except GoError Secrets :=
  if mapLen secretParams = 0 then .ok emptySecrets
  else
    match lookupKey secretParams "node.session.auth.username" with
    | none => .error (.secretFieldNotFound "node.session.auth.username")
    | some u =>
      match lookupKey secretParams "node.session.auth.password" with
      | none => .error (.secretFieldNotFound "node.session.auth.password")
      | some p =>
        match lookupKey secretParams "node.session.auth.username_in" with
        | none => .error (.secretFieldNotFound "node.session.auth.username_in")
        | some ui =>
          match lookupKey secretParams "node.session.auth.password_in" with
          | none => .error (.secretFieldNotFound "node.session.auth.password_in")
          | some pi =>
            .ok { UserName := u, Password := p, UserNameIn := ui,
                  PasswordIn := pi, SecretsType := "chap" }

/-- `parseDiscoverySecret` of `csi/iscsi.go`: as `parseSessionSecret` but for
the four `node.sendtargets.auth.*` fields. -/
def parseDiscoverySecret (secretParams : SecretMap) : Except GoError Secrets :=
  if mapLen secretParams = 0 then .ok emptySecrets
  else
    match lookupKey secretParams "node.sendtargets.auth.username" with
    | none => .error (.secretFieldNotFound "node.sendtargets.auth.username")
    | some u =>
      match lookupKey secretParams "node.sendtargets.auth.password" with
      | none => .error (.secretFieldNotFound "node.sendtargets.auth.password")
      | some p =>
        match lookupKey secretParams "node.sendtargets.auth.username_in" with
        | none => .error (.secretFieldNotFound "node.sendtargets.auth.username_in")
        | some ui =>
          match lookupKey secretParams "node.sendtargets.auth.password_in" with
          | none => .error (.secretFieldNotFound "node.sendtargets.auth.password_in")
          | some pi =>
            .ok { UserName := u, Password := p, UserNameIn := ui,
                  PasswordIn := pi, SecretsType := "chap" }

/-- `getISCSIInfo` of `csi/iscsi.go` (the ConnectionDescriptorBuilder):
`volName` stands for `req.GetVolumeId()`.  Steps in source order: require the
three target fields non-empty; decode the secret and extract both scopes;
normalize the primary portal and every portal of the comma-split list (the
emptiness check on the split result precedes the loop, as in the source);
read the two CHAP flags; parse the LUN; assemble the disk. -/
def getISCSIInfo (unmarshal : String → Option SecretMap) (volName : String)
    (ctx : iscsiContext) : Except GoError iscsiDisk :=
  let tp := ctx.TargetPortal
  let iqn := ctx.IQN
  let lun := ctx.Lun
  if tp = "" ∨ iqn = "" ∨ lun = "" then .error .missingTargetInfo
  else
    let secret := parseSecret unmarshal ctx.Secret
    match parseSessionSecret secret with
    | .error e => .error e
    | .ok sessionSecret =>
      match parseDiscoverySecret secret with
      | .error e => .error e
      | .ok discoverySecret =>
        let portal := portalMounter tp
        let portals := goSplit ctx.Portals ','
        if portals.length = 0 then .error .noPortalsProvided
        else
          let bkportal := portal :: portals.map portalMounter
          let chapDiscovery := ctx.DiscoveryCHAPAuth = "true"
          let chapSession := ctx.SessionCHAPAuth = "true"
          let lunStep : Except GoError Int :=
            if lun = "" then .ok 0
            else
              match goAtoi lun with
              | none => .error (.invalidLun lun)
              | some l => .ok (toInt32 l)
          match lunStep with
          | .error e => .error e
          | .ok lunVal =>
              .ok { VolName := volName
                    Portals := bkportal
                    Iqn := iqn
                    lun := lunVal
                    Iface := ctx.ISCSIInterface
                    chapDiscovery := chapDiscovery
                    chapSession := chapSession
                    secret := secret
                    sessionSecret := sessionSecret
                    discoverySecret := discoverySecret
                    InitiatorName := ctx.InitiatorName }

/-- One `iscsiLib.TargetInfo` of the connector's target list. -/
structure TargetInfo where
  Iqn : String
  Port : String
  Portal : String
  deriving DecidableEq, Repr

/-- `iscsiLib.Connector` (the ConnectorRecord of the spec); the two secret
fields default to the zero value and are set only by the conditionals of
`buildISCSIConnector`. -/
structure Connector where
  VolumeName : String
  Targets : List TargetInfo
  TargetIqn : String
  TargetPortals : List String
  Lun : Int
  Multipath : Bool
  DoDiscovery : Bool
  SessionSecrets : Secrets
  DiscoverySecrets : Secrets

/-- `buildISCSIConnector` of `csi/iscsi.go` (the ConnectorAssembler): derive
a host/port pair from each portal (splitting on `:` when present, with
`toks[0]`/`toks[1]`), set multipath iff more than one portal, always request
discovery, and attach session secrets when non-zero, discovery secrets only
inside the session branch. -/
def buildISCSIConnector (iscsiInfo : iscsiDisk) : Connector :=
  let targets := iscsiInfo.Portals.map (fun portal =>
    if goContains portal ':' then
      let toks := goSplit portal ':'
      { Iqn := iscsiInfo.Iqn, Port := toks.getD 1 "", Portal := toks.getD 0 "" }
    else
      { Iqn := iscsiInfo.Iqn, Port := defaultPort, Portal := portal })
  let c : Connector :=
    { VolumeName := iscsiInfo.VolName
      Targets := targets
      TargetIqn := iscsiInfo.Iqn
      TargetPortals := iscsiInfo.Portals
      Lun := iscsiInfo.lun
      Multipath := decide (iscsiInfo.Portals.length > 1)
      DoDiscovery := true
      SessionSecrets := emptySecrets
      DiscoverySecrets := emptySecrets }
  if iscsiInfo.sessionSecret ≠ emptySecrets then
    if iscsiInfo.discoverySecret ≠ emptySecrets then
      { c with SessionSecrets := iscsiInfo.sessionSecret,
               DiscoverySecrets := iscsiInfo.discoverySecret }
    else
      { c with SessionSecrets := iscsiInfo.sessionSecret }
  else c

/-- Outcomes of `parseISCSIEndpoint`, including the runtime panic of the
slice `endpoint[0:8]` on an input shorter than the prefix. -/
inductive EndpointError where
  | panicSliceBounds
  | malformedEndpoint
  | invalidEndpoint
  deriving DecidableEq, Repr

/-- `parseISCSIEndpoint` of `csi/iscsi.go`: require the `iscsi://` prefix
(panicking when the input is shorter than 8), split the remainder on `/` and
require exactly three segments: portal, iqn, lun. -/
def parseISCSIEndpoint (endpoint : String) :
    Except EndpointError (String × String × String) :=
  if endpoint.data.length < 8 then .error .panicSliceBounds
  else if String.mk (endpoint.data.take 8) ≠ "iscsi://" then
    .error .malformedEndpoint
  else
    let toks := goSplit (String.mk (endpoint.data.drop 8)) '/'
    if toks.length ≠ 3 then .error .invalidEndpoint
    else .ok (toks.getD 0 "", toks.getD 1 "", toks.getD 2 "")

/-! Concrete fixtures used by the witnesses and counterexamples below. -/

/-- The serialized blob `"\x7b\x7d"` (an empty JSON object). -/
def blobEmptyObj : String := "\x7b\x7d"

/-- A serialized blob decoding to the one-entry mapping `a ↦ b`, which is
non-empty but contains none of the credential fields. -/
def blobPartial : String := "\x7b\"a\":\"b\"\x7d"

/-- A serialized blob decoding to a mapping holding exactly the four
session-scope fields. -/
def blobSession : String :=
  "\x7b\"node.session.auth.username\":\"u\",\"node.session.auth.password\":\"p\",\"node.session.auth.username_in\":\"ui\",\"node.session.auth.password_in\":\"pi\"\x7d"

/-- The one-entry mapping `a ↦ b`: non-empty, no credential fields. -/
def mapPartial : SecretMap := [("a", "b")]

/-- A mapping holding exactly the four session-scope fields. -/
def mapSessionFull : SecretMap :=
  [("node.session.auth.username", "u"), ("node.session.auth.password", "p"),
   ("node.session.auth.username_in", "ui"), ("node.session.auth.password_in", "pi")]

/-- A concrete instance of the external JSON decoder parameter, agreeing with
`encoding/json.Unmarshal` on the fixture blobs: the three JSON objects above
decode to their mappings, and every other fixture input (such as `""` or
`"not-json"`) is not valid JSON and fails to decode. -/
def unmarshalFix : String → Option SecretMap := fun s =>
  if s = blobEmptyObj then some []
  else if s = blobPartial then some mapPartial
  else if s = blobSession then some mapSessionFull
  else none

/-- A RawContext with both CHAP flags set to `"true"` but an empty credential
blob, so neither credential scope can be parsed from it. -/
def ctxFlagsNoSecret : iscsiContext :=
  { TargetPortal := "10.0.0.1", IQN := "iqn.test", Lun := "1", Portals := "10.0.0.2",
    Secret := "", ISCSIInterface := "", InitiatorName := "",
    DiscoveryCHAPAuth := "true", SessionCHAPAuth := "true" }

/-- A RawContext whose comma-separated portal-list string is empty. -/
def ctxEmptyPortals : iscsiContext :=
  { TargetPortal := "10.0.0.1", IQN := "iqn.test", Lun := "1", Portals := "",
    Secret := "", ISCSIInterface := "", InitiatorName := "",
    DiscoveryCHAPAuth := "", SessionCHAPAuth := "" }

/-- A RawContext with a non-integer LUN and a credential blob decoding to a
non-empty mapping that lacks every credential field. -/
def ctxBadLunBadSecret : iscsiContext :=
  { TargetPortal := "10.0.0.1", IQN := "iqn.test", Lun := "abc", Portals := "10.0.0.2",
    Secret := blobPartial, ISCSIInterface := "", InitiatorName := "",
    DiscoveryCHAPAuth := "", SessionCHAPAuth := "" }

/-- The spec's end-to-end example RawContext: primary portal `10.0.0.1`,
portal list `10.0.0.1,10.0.0.2`, LUN `0`. -/
def ctxExample : iscsiContext :=
  { TargetPortal := "10.0.0.1", IQN := "iqn.2020-01.test:disk1", Lun := "0",
    Portals := "10.0.0.1,10.0.0.2", Secret := "", ISCSIInterface := "",
    InitiatorName := "", DiscoveryCHAPAuth := "", SessionCHAPAuth := "" }

/-- A RawContext whose LUN string is the integer `2147483648 = 2^31`, beyond
the signed 32-bit range. -/
def ctxBigLun : iscsiContext :=
  { TargetPortal := "10.0.0.1", IQN := "iqn.test", Lun := "2147483648",
    Portals := "10.0.0.2", Secret := "", ISCSIInterface := "",
    InitiatorName := "", DiscoveryCHAPAuth := "", SessionCHAPAuth := "" }

/-! Helper lemmas shared by the claim theorems. -/

/-- Splitting a character list never produces the empty list of segments. -/
lemma goSplitAux_ne_nil (sep : Char) (l acc : List Char) : goSplitAux sep l acc ≠ [] := by
  induction l generalizing acc with
  | nil => simp [goSplitAux]
  | cons c cs ih =>
      simp only [goSplitAux]
      split
      · simp
      · exact ih _

/-- Go's `strings.Split` never returns a zero-length slice: even the empty
string splits into the single segment `""`. -/
lemma goSplit_length_ne_zero (s : String) (sep : Char) : (goSplit s sep).length ≠ 0 := by
  simp [goSplit, List.length_eq_zero, goSplitAux_ne_nil]

/-- Success shape of `getISCSIInfo`: with non-empty target fields, both scope
extractions succeeding and an integer LUN, the builder returns exactly this
descriptor. -/
lemma getISCSIInfo_ok (unmarshal : String → Option SecretMap) (vol : String)
    (ctx : iscsiContext) (l : Int) (ss ds : Secrets)
    (htp : ctx.TargetPortal ≠ "") (hiqn : ctx.IQN ≠ "") (hlun : ctx.Lun ≠ "")
    (hss : parseSessionSecret (parseSecret unmarshal ctx.Secret) = .ok ss)
    (hds : parseDiscoverySecret (parseSecret unmarshal ctx.Secret) = .ok ds)
    (hatoi : goAtoi ctx.Lun = some l) :
    getISCSIInfo unmarshal vol ctx = .ok
      { VolName := vol
        Portals := portalMounter ctx.TargetPortal :: (goSplit ctx.Portals ',').map portalMounter
        Iqn := ctx.IQN
        lun := toInt32 l
        Iface := ctx.ISCSIInterface
        chapDiscovery := decide (ctx.DiscoveryCHAPAuth = "true")
        chapSession := decide (ctx.SessionCHAPAuth = "true")
        secret := parseSecret unmarshal ctx.Secret
        sessionSecret := ss
        discoverySecret := ds
        InitiatorName := ctx.InitiatorName } := by
  unfold getISCSIInfo
  rw [if_neg (by simp [htp, hiqn, hlun])]
  simp only [hss, hds, hatoi, if_neg hlun, if_neg (goSplit_length_ne_zero ctx.Portals ',')]

/-- Every error of `parseSessionSecret` is a missing-field error. -/
lemma parseSessionSecret_error_shape (m : SecretMap) (e : GoError)
    (h : parseSessionSecret m = .error e) : ∃ f, e = .secretFieldNotFound f := by
  unfold parseSessionSecret at h
  repeat' split at h
  all_goals simp_all
  all_goals exact ⟨_, h.symm⟩

/-- Every error of `parseDiscoverySecret` is a missing-field error. -/
lemma parseDiscoverySecret_error_shape (m : SecretMap) (e : GoError)
    (h : parseDiscoverySecret m = .error e) : ∃ f, e = .secretFieldNotFound f := by
  unfold parseDiscoverySecret at h
  repeat' split at h
  all_goals simp_all
  all_goals exact ⟨_, h.symm⟩

/-- A successful key lookup shows the map is non-empty. -/
lemma lookupKey_some_mapLen_ne_zero {m : SecretMap} {k v : String}
    (h : lookupKey m k = some v) : mapLen m ≠ 0 := by
  cases m with
  | nil => simp [lookupKey, List.lookup] at h
  | cons a t => simp [mapLen]

/-- The Go conversion `int32` preserves the value modulo `2^32` and lands in
the signed 32-bit range. -/
lemma toInt32_spec (l : Int) :
    toInt32 l % 4294967296 = l % 4294967296 ∧
    -2147483648 ≤ toInt32 l ∧ toInt32 l < 2147483648 := by
  by_cases h : l % 4294967296 < 2147483648 <;> simp [toInt32, h] <;> omega

/-! Claim theorems. -/

/-- C9: `portalMounter` is a pure total function: a portal without `:` gets
`":3260"` appended, a portal already containing `:` is returned unchanged. -/
theorem portalMounter_default_port (p : String) :
    (goContains p ':' = false → portalMounter p = p ++ ":3260") ∧
    (goContains p ':' = true → portalMounter p = p) := by
  constructor <;> intro h <;> simp [portalMounter, h]

/-- C9 witness: the two branches of `portalMounter_default_port` evaluated at
`"10.0.0.9"` (no colon) and `"10.0.0.9:5"` (colon present). -/
theorem portalMounter_default_port_witness :
    portalMounter "10.0.0.9" = "10.0.0.9" ++ ":3260" ∧
    portalMounter "10.0.0.9:5" = "10.0.0.9:5" :=
  ⟨(portalMounter_default_port "10.0.0.9").1 (by decide),
   (portalMounter_default_port "10.0.0.9:5").2 (by decide)⟩

/-- C2: `parseISCSIEndpoint` evaluated at the claim's inputs.  The input
`"tcp"`, shorter than eight characters, makes the Go slice `endpoint[0:8]`
panic instead of returning the promised MalformedEndpoint error (the claim's
"never crashes" part fails on the code); the well-formed example and the
wrong-scheme example behave as the claim states. -/
theorem parseISCSIEndpoint_short_input_panics :
    parseISCSIEndpoint "tcp" = .error .panicSliceBounds ∧
    parseISCSIEndpoint "iscsi://10.0.0.1/iqn.test/1" = .ok ("10.0.0.1", "iqn.test", "1") ∧
    parseISCSIEndpoint "tcp://10.0.0.1/iqn.test/1" = .error .malformedEndpoint :=
  ⟨rfl, rfl, rfl⟩

/-- C4: a credential blob that fails to deserialize yields the empty mapping,
the same mapping an (equally undecodable) empty blob yields, and both scope
extractions then succeed returning the absent scope. -/
theorem undecodableBlob_acts_as_no_credentials
    (unmarshal : String → Option SecretMap) (s : String)
    (hs : unmarshal s = none) (h0 : unmarshal "" = none) :
    parseSecret unmarshal s = ([] : SecretMap) ∧
    parseSecret unmarshal s = parseSecret unmarshal "" ∧
    parseSessionSecret (parseSecret unmarshal s) = .ok emptySecrets ∧
    parseDiscoverySecret (parseSecret unmarshal s) = .ok emptySecrets := by
  simp [parseSecret, hs, h0, parseSessionSecret, parseDiscoverySecret, mapLen]

/-- C4 witness: `undecodableBlob_acts_as_no_credentials` at the concrete
decoder `unmarshalFix` and the undecodable blob `"not-json"`. -/
theorem undecodableBlob_acts_as_no_credentials_witness :
    parseSecret unmarshalFix "not-json" = ([] : SecretMap) ∧
    parseSecret unmarshalFix "not-json" = parseSecret unmarshalFix "" ∧
    parseSessionSecret (parseSecret unmarshalFix "not-json") = .ok emptySecrets ∧
    parseDiscoverySecret (parseSecret unmarshalFix "not-json") = .ok emptySecrets :=
  undecodableBlob_acts_as_no_credentials unmarshalFix "not-json" (by decide) (by decide)

/-- C3 counterexample: a RawContext with non-empty target portal, name and
LUN whose portal-list string is empty is accepted (the claim says it must
fail with NoPortalsProvided): the builder succeeds, normalizing the empty
portal element to `":3260"`. -/
theorem emptyPortalListString_accepted :
    getISCSIInfo unmarshalFix "vol" ctxEmptyPortals = .ok
      { VolName := "vol", Portals := ["10.0.0.1:3260", ":3260"], Iqn := "iqn.test",
        lun := 1, Iface := "", chapDiscovery := false, chapSession := false,
        secret := ([] : SecretMap), sessionSecret := emptySecrets,
        discoverySecret := emptySecrets, InitiatorName := "" } := rfl

/-- C3 (amended): Go's `strings.Split` returns at least one element for every
input, so the `NoPortalsProvided` check of the builder is unreachable: no
RawContext whatsoever makes `getISCSIInfo` fail with that error. -/
theorem noPortalsProvided_unreachable (unmarshal : String → Option SecretMap)
    (vol : String) (ctx : iscsiContext) :
    getISCSIInfo unmarshal vol ctx ≠ .error .noPortalsProvided := by
  intro h
  unfold getISCSIInfo at h
  dsimp only at h
  split at h
  · simp at h
  · split at h
    · rename_i e heq
      obtain ⟨f, rfl⟩ := parseSessionSecret_error_shape _ e heq
      simp at h
    · split at h
      · rename_i e heq
        obtain ⟨f, rfl⟩ := parseDiscoverySecret_error_shape _ e heq
        simp at h
      · split at h
        · rename_i hlen
          exact goSplit_length_ne_zero ctx.Portals ',' hlen
        · split at h
          · rename_i e heq
            split at heq
            · simp at heq
            · split at heq
              · simp at heq
                subst heq
                simp at h
              · simp at heq
          · simp at h

/-- C3 witness: `noPortalsProvided_unreachable` at a concrete RawContext with
an empty portal-list string. -/
theorem noPortalsProvided_unreachable_witness :
    getISCSIInfo unmarshalFix "w3" ctxEmptyPortals ≠ .error .noPortalsProvided :=
  noPortalsProvided_unreachable unmarshalFix "w3" ctxEmptyPortals

/-- C1 counterexample: a RawContext with both CHAP flag strings `"true"` and
an empty (undecodable) credential blob — so neither scope parses non-empty —
is accepted by the builder, with both flags recorded true and both scopes
absent; the claim says such a construction must fail. -/
theorem chapFlagTrueWithoutScope_accepted :
    getISCSIInfo unmarshalFix "vol" ctxFlagsNoSecret = .ok
      { VolName := "vol", Portals := ["10.0.0.1:3260", "10.0.0.2:3260"], Iqn := "iqn.test",
        lun := 1, Iface := "", chapDiscovery := true, chapSession := true,
        secret := ([] : SecretMap), sessionSecret := emptySecrets,
        discoverySecret := emptySecrets, InitiatorName := "" } := rfl

/-- C1 (amended): the builder records the CHAP flags independently of
credential parsing: a RawContext whose flags are `"true"` but whose blob does
not decode (so no scope is obtained) still constructs successfully, with both
flags true and both scopes absent; construction fails on credentials only
when the blob decodes to a non-empty mapping missing a field, regardless of
the flags. -/
theorem chapFlags_recorded_independently_of_scopes
    (unmarshal : String → Option SecretMap) (vol : String) (ctx : iscsiContext) (l : Int)
    (htp : ctx.TargetPortal ≠ "") (hiqn : ctx.IQN ≠ "") (hlun : ctx.Lun ≠ "")
    (hatoi : goAtoi ctx.Lun = some l)
    (hblob : unmarshal ctx.Secret = none)
    (hdflag : ctx.DiscoveryCHAPAuth = "true") (hsflag : ctx.SessionCHAPAuth = "true") :
    ∃ d, getISCSIInfo unmarshal vol ctx = .ok d ∧
      d.chapDiscovery = true ∧ d.chapSession = true ∧
      d.discoverySecret = emptySecrets ∧ d.sessionSecret = emptySecrets := by
  have hsec : parseSecret unmarshal ctx.Secret = ([] : SecretMap) := by
    simp [parseSecret, hblob]
  refine ⟨_, getISCSIInfo_ok unmarshal vol ctx l emptySecrets emptySecrets htp hiqn hlun
    (by rw [hsec]; rfl) (by rw [hsec]; rfl) hatoi, ?_, ?_, ?_, ?_⟩
  · simp [hdflag]
  · simp [hsflag]
  · rfl
  · rfl

/-- C1 witness: `chapFlags_recorded_independently_of_scopes` at the concrete
RawContext `ctxFlagsNoSecret`. -/
theorem chapFlags_recorded_independently_of_scopes_witness :
    ∃ d, getISCSIInfo unmarshalFix "w1" ctxFlagsNoSecret = .ok d ∧
      d.chapDiscovery = true ∧ d.chapSession = true ∧
      d.discoverySecret = emptySecrets ∧ d.sessionSecret = emptySecrets :=
  chapFlags_recorded_independently_of_scopes unmarshalFix "w1" ctxFlagsNoSecret 1
    (by decide) (by decide) (by decide) (by decide) (by decide) rfl rfl

/-- C5 counterexample: a RawContext with the non-integer LUN `"abc"` and a
blob decoding to a non-empty mapping without the session username fails with
the missing-credential error, not with the LUN parse error the claim
requires (the second conjunct records that the LUN is indeed non-integer). -/
theorem credentialError_reported_before_lunError :
    getISCSIInfo unmarshalFix "vol" ctxBadLunBadSecret =
      .error (.secretFieldNotFound "node.session.auth.username") ∧
    goAtoi ctxBadLunBadSecret.Lun = none :=
  ⟨rfl, rfl⟩

/-- C5 (amended): the builder extracts the credential scopes before parsing
the LUN: with a non-integer LUN and a blob decoding to a non-empty mapping
missing the session username, construction fails with the
IncompleteCredentialScope error, not with InvalidLun. -/
theorem secrets_extracted_before_lun_parse
    (unmarshal : String → Option SecretMap) (vol : String) (ctx : iscsiContext) (m : SecretMap)
    (htp : ctx.TargetPortal ≠ "") (hiqn : ctx.IQN ≠ "") (hlun : ctx.Lun ≠ "")
    (hbadlun : goAtoi ctx.Lun = none)
    (hm : unmarshal ctx.Secret = some m) (hne : mapLen m ≠ 0)
    (hmiss : lookupKey m "node.session.auth.username" = none) :
    getISCSIInfo unmarshal vol ctx =
      .error (.secretFieldNotFound "node.session.auth.username") := by
  have hsec : parseSecret unmarshal ctx.Secret = m := by simp [parseSecret, hm]
  have hss : parseSessionSecret m =
      .error (.secretFieldNotFound "node.session.auth.username") := by
    simp [parseSessionSecret, hne, hmiss]
  unfold getISCSIInfo
  rw [if_neg (by simp [htp, hiqn, hlun])]
  simp only [hsec, hss]

/-- C5 witness: `secrets_extracted_before_lun_parse` at the concrete
RawContext `ctxBadLunBadSecret` and its decoded mapping `mapPartial`. -/
theorem secrets_extracted_before_lun_parse_witness :
    getISCSIInfo unmarshalFix "w5" ctxBadLunBadSecret =
      .error (.secretFieldNotFound "node.session.auth.username") :=
  secrets_extracted_before_lun_parse unmarshalFix "w5" ctxBadLunBadSecret mapPartial
    (by decide) (by decide) (by decide) (by decide) (by decide) (by decide) (by decide)

/-- C6: for every valid RawContext (non-empty target portal, name, LUN and
portal-list string, integer LUN, both scope extractions succeeding) the
builder succeeds and the resulting portal sequence is exactly the normalized
target portal followed by each element of the comma-split list independently
normalized, with no deduplication. -/
theorem builder_portal_sequence_spec
    (unmarshal : String → Option SecretMap) (vol : String) (ctx : iscsiContext)
    (l : Int) (ss ds : Secrets)
    (htp : ctx.TargetPortal ≠ "") (hiqn : ctx.IQN ≠ "") (hlun : ctx.Lun ≠ "")
    (hportals : ctx.Portals ≠ "")
    (hss : parseSessionSecret (parseSecret unmarshal ctx.Secret) = .ok ss)
    (hds : parseDiscoverySecret (parseSecret unmarshal ctx.Secret) = .ok ds)
    (hatoi : goAtoi ctx.Lun = some l) :
    ∃ d, getISCSIInfo unmarshal vol ctx = .ok d ∧
      d.Portals =
        portalMounter ctx.TargetPortal :: (goSplit ctx.Portals ',').map portalMounter :=
  ⟨_, getISCSIInfo_ok unmarshal vol ctx l ss ds htp hiqn hlun hss hds hatoi, rfl⟩

/-- C6 witness: `builder_portal_sequence_spec` at the spec's end-to-end
example RawContext (`10.0.0.1` with list `10.0.0.1,10.0.0.2`). -/
theorem builder_portal_sequence_spec_witness :
    ∃ d, getISCSIInfo unmarshalFix "w6" ctxExample = .ok d ∧
      d.Portals =
        portalMounter ctxExample.TargetPortal ::
          (goSplit ctxExample.Portals ',').map portalMounter :=
  builder_portal_sequence_spec unmarshalFix "w6" ctxExample 0 emptySecrets emptySecrets
    (by decide) (by decide) (by decide) (by decide) rfl rfl (by decide)

/-- C7: credential attachment in `buildISCSIConnector`: session credentials
are attached exactly when the descriptor's session scope is non-absent, and
discovery credentials exactly when both the session and the discovery scope
are non-absent — in particular a descriptor with an absent session scope
yields a connector with no discovery credentials even when the discovery
scope is present. -/
theorem connector_credential_attachment_rule (d : iscsiDisk) :
    (buildISCSIConnector d).SessionSecrets =
      (if d.sessionSecret ≠ emptySecrets then d.sessionSecret else emptySecrets) ∧
    (buildISCSIConnector d).DiscoverySecrets =
      (if d.sessionSecret ≠ emptySecrets ∧ d.discoverySecret ≠ emptySecrets
        then d.discoverySecret else emptySecrets) := by
  unfold buildISCSIConnector
  dsimp only
  split
  · rename_i h1
    split
    · rename_i h2
      simp [h1, h2]
    · rename_i h2
      simp [h1, h2]
  · rename_i h1
    simp [h1]

/-- C8 counterexample: the blob `"\x7b\x7d"` deserializes to the empty
mapping, which is missing all four session fields, yet the extractor
succeeds with the absent scope instead of failing with the
missing-field error the claim requires for every mapping missing a field. -/
theorem emptyMapping_missing_fields_accepted :
    unmarshalFix blobEmptyObj = some ([] : SecretMap) ∧
    lookupKey ([] : SecretMap) "node.session.auth.username" = none ∧
    parseSessionSecret (parseSecret unmarshalFix blobEmptyObj) = .ok emptySecrets :=
  ⟨rfl, rfl, rfl⟩

/-- C8 (amended): for a mapping containing all four fields of a scope the
extractor returns the scope populated with exactly those values (plus the
`"chap"` type tag); for a NON-EMPTY mapping missing at least one of the
scope's fields it fails with a missing-field error naming a field that is
indeed absent, returning no scope at all (the empty mapping instead yields
the absent scope with no error).  Stated for both the session and the
discovery scope. -/
theorem scope_extraction_all_or_nothing (m : SecretMap) :
    (∀ u p ui pi,
      lookupKey m "node.session.auth.username" = some u →
      lookupKey m "node.session.auth.password" = some p →
      lookupKey m "node.session.auth.username_in" = some ui →
      lookupKey m "node.session.auth.password_in" = some pi →
      parseSessionSecret m = .ok
        { UserName := u, Password := p, UserNameIn := ui,
          PasswordIn := pi, SecretsType := "chap" }) ∧
    (mapLen m ≠ 0 →
      (lookupKey m "node.session.auth.username" = none ∨
       lookupKey m "node.session.auth.password" = none ∨
       lookupKey m "node.session.auth.username_in" = none ∨
       lookupKey m "node.session.auth.password_in" = none) →
      ∃ f, parseSessionSecret m = .error (.secretFieldNotFound f) ∧
        lookupKey m f = none) ∧
    (∀ u p ui pi,
      lookupKey m "node.sendtargets.auth.username" = some u →
      lookupKey m "node.sendtargets.auth.password" = some p →
      lookupKey m "node.sendtargets.auth.username_in" = some ui →
      lookupKey m "node.sendtargets.auth.password_in" = some pi →
      parseDiscoverySecret m = .ok
        { UserName := u, Password := p, UserNameIn := ui,
          PasswordIn := pi, SecretsType := "chap" }) ∧
    (mapLen m ≠ 0 →
      (lookupKey m "node.sendtargets.auth.username" = none ∨
       lookupKey m "node.sendtargets.auth.password" = none ∨
       lookupKey m "node.sendtargets.auth.username_in" = none ∨
       lookupKey m "node.sendtargets.auth.password_in" = none) →
      ∃ f, parseDiscoverySecret m = .error (.secretFieldNotFound f) ∧
        lookupKey m f = none) := by
  refine ⟨?_, ?_, ?_, ?_⟩
  · intro u p ui pi h1 h2 h3 h4
    simp [parseSessionSecret, lookupKey_some_mapLen_ne_zero h1, h1, h2, h3, h4]
  · intro hne hd
    cases h1 : lookupKey m "node.session.auth.username" with
    | none => exact ⟨_, by simp [parseSessionSecret, hne, h1], h1⟩
    | some u =>
      cases h2 : lookupKey m "node.session.auth.password" with
      | none => exact ⟨_, by simp [parseSessionSecret, hne, h1, h2], h2⟩
      | some p =>
        cases h3 : lookupKey m "node.session.auth.username_in" with
        | none => exact ⟨_, by simp [parseSessionSecret, hne, h1, h2, h3], h3⟩
        | some ui =>
          cases h4 : lookupKey m "node.session.auth.password_in" with
          | none => exact ⟨_, by simp [parseSessionSecret, hne, h1, h2, h3, h4], h4⟩
          | some pi => rcases hd with h | h | h | h <;> simp_all
  · intro u p ui pi h1 h2 h3 h4
    simp [parseDiscoverySecret, lookupKey_some_mapLen_ne_zero h1, h1, h2, h3, h4]
  · intro hne hd
    cases h1 : lookupKey m "node.sendtargets.auth.username" with
    | none => exact ⟨_, by simp [parseDiscoverySecret, hne, h1], h1⟩
    | some u =>
      cases h2 : lookupKey m "node.sendtargets.auth.password" with
      | none => exact ⟨_, by simp [parseDiscoverySecret, hne, h1, h2], h2⟩
      | some p =>
        cases h3 : lookupKey m "node.sendtargets.auth.username_in" with
        | none => exact ⟨_, by simp [parseDiscoverySecret, hne, h1, h2, h3], h3⟩
        | some ui =>
          cases h4 : lookupKey m "node.sendtargets.auth.password_in" with
          | none => exact ⟨_, by simp [parseDiscoverySecret, hne, h1, h2, h3, h4], h4⟩
          | some pi => rcases hd with h | h | h | h <;> simp_all

/-- C8 witness: `scope_extraction_all_or_nothing` applied to the full session
mapping (populated result) and to the non-empty mapping `a ↦ b` (failure
naming an absent field). -/
theorem scope_extraction_all_or_nothing_witness :
    parseSessionSecret mapSessionFull = .ok
      { UserName := "u", Password := "p", UserNameIn := "ui",
        PasswordIn := "pi", SecretsType := "chap" } ∧
    (∃ f, parseSessionSecret mapPartial = .error (.secretFieldNotFound f) ∧
      lookupKey mapPartial f = none) :=
  ⟨(scope_extraction_all_or_nothing mapSessionFull).1 "u" "p" "ui" "pi" rfl rfl rfl rfl,
   (scope_extraction_all_or_nothing mapPartial).2.1 (by decide) (Or.inl (by decide))⟩

/-- C10: a LUN string parsing to an integer outside the signed 32-bit range
(but accepted by `strconv.Atoi`) does not fail the builder: construction
succeeds with the LUN silently reduced modulo `2^32` into the signed 32-bit
range, in particular a value different from the parsed one. -/
theorem out_of_range_lun_wraps
    (unmarshal : String → Option SecretMap) (vol : String) (ctx : iscsiContext)
    (l : Int) (ss ds : Secrets)
    (htp : ctx.TargetPortal ≠ "") (hiqn : ctx.IQN ≠ "") (hlun : ctx.Lun ≠ "")
    (hss : parseSessionSecret (parseSecret unmarshal ctx.Secret) = .ok ss)
    (hds : parseDiscoverySecret (parseSecret unmarshal ctx.Secret) = .ok ds)
    (hatoi : goAtoi ctx.Lun = some l)
    (hout : l < -2147483648 ∨ 2147483648 ≤ l) :
    ∃ d, getISCSIInfo unmarshal vol ctx = .ok d ∧
      d.lun % 4294967296 = l % 4294967296 ∧
      -2147483648 ≤ d.lun ∧ d.lun < 2147483648 ∧ d.lun ≠ l := by
  have h := toInt32_spec l
  refine ⟨_, getISCSIInfo_ok unmarshal vol ctx l ss ds htp hiqn hlun hss hds hatoi,
    h.1, h.2.1, h.2.2, ?_⟩
  show toInt32 l ≠ l
  rcases hout with h' | h' <;> omega

/-- C10 witness: `out_of_range_lun_wraps` at the LUN string `"2147483648"`
(= 2^31): the stored 32-bit value wraps to a different integer. -/
theorem out_of_range_lun_wraps_witness :
    ∃ d, getISCSIInfo unmarshalFix "w10" ctxBigLun = .ok d ∧
      d.lun % 4294967296 = 2147483648 % 4294967296 ∧
      -2147483648 ≤ d.lun ∧ d.lun < 2147483648 ∧ d.lun ≠ 2147483648 :=
  out_of_range_lun_wraps unmarshalFix "w10" ctxBigLun 2147483648 emptySecrets emptySecrets
    (by decide) (by decide) (by decide) rfl rfl (by decide) (Or.inr (by decide))

end ISCSI
